import Mathlib

/-!
Verification of the student-habits dashboard (Dash application).

The development shallowly embeds the data model and the pure fragments of
`config.py`, `data_manager.py`, `plots.py`, `callbacks.py`, `app.py` and the
monolithic variant in `main.py`.  A pandas `DataFrame` is modelled as a list
of typed rows together with the list of column names; pandas boolean-mask
selection is row filtering; figures returned by the plotly builders are
modelled by an inductive type recording exactly the data and options each
builder hands to the plotting library.
-/

namespace StudentDash

/-- One record of the `student_habits_performance.csv` dataset, restricted to
the columns the dashboard reads (`REQUIRED_COLUMNS` in `config.py`).
Numeric cells are modelled as exact rationals. -/
structure Row where
  gender : String
  parental_education_level : String
  study_hours_per_day : ℚ
  exam_score : ℚ
  social_media_hours : ℚ
  sleep_hours : ℚ
  attendance_percentage : ℚ
  part_time_job : String
  mental_health_rating : ℚ
deriving DecidableEq, Repr

/-- A pandas `DataFrame`: the list of column names (`df.columns`) and the
rows.  Boolean-mask row selection keeps the columns and filters the rows. -/
structure Frame where
  cols : List String
  rows : List Row
deriving DecidableEq, Repr

/-- `pd.DataFrame()`: the frame with no columns and no rows. -/
def Frame.emptyFrame : Frame := ⟨[], []⟩

/-- `df.empty` (the frames representable here have a row list; the frame is
empty exactly when it has no rows). -/
def Frame.isEmptyF (f : Frame) : Bool := f.rows.isEmpty

/-- `filtered_df[mask]`: boolean-mask selection keeps all columns and the rows
satisfying the predicate, in order. -/
def Frame.filterRows (f : Frame) (p : Row → Bool) : Frame :=
  { f with rows := f.rows.filter p }

/-- Truthiness of an `Optional[List[str]]` argument in Python:
`None` and `[]` are falsy, a non-empty list is truthy. -/
def pyTruthy : Option (List String) → Bool
  | none => false
  | some l => !l.isEmpty

namespace config

/-- `REQUIRED_COLUMNS` from `config.py`. -/
def REQUIRED_COLUMNS : List String :=
  ["gender", "parental_education_level", "study_hours_per_day",
   "exam_score", "social_media_hours", "sleep_hours",
   "attendance_percentage", "part_time_job", "mental_health_rating"]

/-- `HEATMAP_NUMERIC_COLS` from `config.py`. -/
def HEATMAP_NUMERIC_COLS : List String :=
  ["study_hours_per_day", "sleep_hours", "social_media_hours",
   "exam_score", "attendance_percentage"]

/-- `THEMES` from `config.py`, a mapping of display names to Bootstrap
stylesheet names (`dbc.themes.FLATLY` and so on are identified here by the
Bootstrap theme name carried in the URL). -/
def THEMES : List (String × String) := [("Jasny", "FLATLY"), ("Ciemny", "DARKLY")]

end config

namespace data_manager

/-- `data_manager.filter_data`: filters the frame by the user's selections.
`None` input (`df is None`) and the empty frame give `pd.DataFrame()`;
otherwise the gender, parental-education and part-time-job filters apply when
their selection list is truthy, and the study-hours range filter applies when
the range list has exactly two elements. -/
def filter_data (df : Option Frame) (selected_gender selected_edu : Option (List String))
    (study_hours_range : List ℚ) (selected_job : Option (List String)) : Frame :=
  match df with
  | none => Frame.emptyFrame
  | some d =>
    if d.isEmptyF then Frame.emptyFrame
    else
      let f1 := if pyTruthy selected_gender then
        d.filterRows (fun r => decide (r.gender ∈ selected_gender.getD [])) else d
      let f2 := if pyTruthy selected_edu then
        f1.filterRows (fun r => decide (r.parental_education_level ∈ selected_edu.getD [])) else f1
      let f3 := if pyTruthy selected_job then
        f2.filterRows (fun r => decide (r.part_time_job ∈ selected_job.getD [])) else f2
      match study_hours_range with
      | [lo, hi] =>
        f3.filterRows (fun r =>
          decide (lo ≤ r.study_hours_per_day) && decide (r.study_hours_per_day ≤ hi))
      | _ => f3

end data_manager

namespace StudentPerformanceDashboard

/-- `StudentPerformanceDashboard.filter_data` from `main.py` (`self.df` is
passed explicitly); its body is line for line the one of
`data_manager.filter_data`. -/
def filter_data (self_df : Option Frame) (selected_gender selected_edu : Option (List String))
    (study_hours_range : List ℚ) (selected_job : Option (List String)) : Frame :=
  match self_df with
  | none => Frame.emptyFrame
  | some d =>
    if d.isEmptyF then Frame.emptyFrame
    else
      let f1 := if pyTruthy selected_gender then
        d.filterRows (fun r => decide (r.gender ∈ selected_gender.getD [])) else d
      let f2 := if pyTruthy selected_edu then
        f1.filterRows (fun r => decide (r.parental_education_level ∈ selected_edu.getD [])) else f1
      let f3 := if pyTruthy selected_job then
        f2.filterRows (fun r => decide (r.part_time_job ∈ selected_job.getD [])) else f2
      match study_hours_range with
      | [lo, hi] =>
        f3.filterRows (fun r =>
          decide (lo ≤ r.study_hours_per_day) && decide (r.study_hours_per_day ≤ hi))
      | _ => f3

end StudentPerformanceDashboard

/-- The conjunction of the active filters, as one predicate on a row: each
categorical filter constrains the row only when its selection is truthy, and
the study-hours bound applies only when the range has exactly two elements
(inclusively on both ends). -/
def activeFilterPred (selected_gender selected_edu : Option (List String))
    (study_hours_range : List ℚ) (selected_job : Option (List String)) (r : Row) : Bool :=
  (!pyTruthy selected_gender || decide (r.gender ∈ selected_gender.getD [])) &&
  ((!pyTruthy selected_edu || decide (r.parental_education_level ∈ selected_edu.getD [])) &&
   ((!pyTruthy selected_job || decide (r.part_time_job ∈ selected_job.getD [])) &&
    (match study_hours_range with
     | [lo, hi] => decide (lo ≤ r.study_hours_per_day) && decide (r.study_hours_per_day ≤ hi)
     | _ => true)))

/-- Arithmetic mean of a list of numbers (pandas `.mean()`), as an exact
rational (`0` on the empty list, a case always guarded in the source). -/
def mean (l : List ℚ) : ℚ := l.sum / l.length

/-- Round the fraction `num / den` (with `den > 0`) to the nearest integer,
ties to even: the rounding IEEE-754 floats use, hence the one behind pandas
`.round()` and Python `format`.  Stated on the numerator and denominator so
it evaluates by kernel reduction. -/
def roundHE (num : ℤ) (den : ℕ) : ℤ :=
  let fl := num.ediv den
  let rem := num.emod den
  if 2 * rem < den then fl
  else if (den : ℤ) < 2 * rem then fl + 1
  else if fl % 2 = 0 then fl else fl + 1

/-- pandas `Series.round()` with no argument: round to the nearest integer,
ties to even. -/
def pyRound (q : ℚ) : ℚ := (roundHE q.num q.den : ℚ)

/-- Python `int()` on a number: truncation toward zero. -/
def pyInt (q : ℚ) : ℤ :=
  if 0 ≤ q.num then q.num.ediv q.den else -((-q.num).ediv q.den)

/-- Left-pad a two-digit fractional part with `0`. -/
def pad2 (n : Nat) : String := if n < 10 then "0" ++ toString n else toString n

/-- Python `f-string` formatting with `:.2f`: the number rounded to two
decimal places (ties to even) and printed with exactly two fractional
digits. -/
def fmt2 (q : ℚ) : String :=
  let n := roundHE (100 * q.num) q.den
  (if n < 0 then "-" else "") ++ toString (n.natAbs / 100) ++ "." ++ pad2 (n.natAbs % 100)

/-- The distinct values of a string key over the rows, in ascending order:
pandas `groupby` sorts its group keys. -/
def sortedKeys (rows : List Row) (key : Row → String) : List String :=
  ((rows.map key).dedup).insertionSort (fun a b => a ≤ b)

/-- Lexicographic comparison of string pairs, for the two-level
`groupby(['part_time_job', 'gender'])`. -/
def pairLe (p q : String × String) : Bool :=
  decide (p.1 < q.1) || (decide (p.1 = q.1) && decide (p.2 ≤ q.2))

/-- The distinct `(part_time_job, gender)` pairs over the rows, in ascending
lexicographic order. -/
def sortedPairKeys (rows : List Row) : List (String × String) :=
  ((rows.map (fun r => (r.part_time_job, r.gender))).dedup).insertionSort
    (fun p q => pairLe p q = true)

/-- The distinct values of a rational key over the rows, in ascending
order. -/
def sortedRatKeys (rows : List Row) (key : Row → ℚ) : List ℚ :=
  ((rows.map key).dedup).insertionSort (fun a b => a ≤ b)

/-- The conjunction of the three categorical filters alone (no study-hours
constraint). -/
def categoricalFilterPred (selected_gender selected_edu : Option (List String))
    (selected_job : Option (List String)) (r : Row) : Bool :=
  (!pyTruthy selected_gender || decide (r.gender ∈ selected_gender.getD [])) &&
  ((!pyTruthy selected_edu || decide (r.parental_education_level ∈ selected_edu.getD [])) &&
   (!pyTruthy selected_job || decide (r.part_time_job ∈ selected_job.getD [])))

namespace plots

/-- One `go.Scatterpolar` trace of the mental-health radar chart. -/
structure PolarTrace where
  r : List ℚ
  theta : List String
  name : String
  line_color : String
deriving DecidableEq, Repr

/-- A plotly figure as the chart builders of `plots.py` construct it: each
constructor records the data and the options the builder hands to the
plotting primitive.  The `Empty` constructors are the title-only placeholder
charts (`px.scatter(title=...)` with no data, `px.imshow([[0]], ...)`,
`go.Figure().add_annotation(...)`).  `imshowCorr` records the sub-frame
(column names with their values, in order) on which `.corr()` is taken; the
correlation matrix itself is numeric-library output. -/
inductive Fig where
  | scatterEmpty (title : String)
  | scatter (rows : List Row) (x y color : String) (hover_data : List String)
      (template title : String)
  | boxEmpty (title : String)
  | box (rows : List Row) (x y color : String) (template title : String)
  | imshow (z : List (List ℚ)) (title : String)
  | imshowCorr (sub : List (String × List ℚ)) (template title : String)
  | histogramEmpty (title : String)
  | histogram (rows : List Row) (x color : String) (nbins : Nat) (barmode : String)
      (opacity : ℚ) (template title : String)
  | barEmpty (title : String)
  | bar (data : List (String × ℚ)) (x y template title : String)
  | lineEmpty (title : String)
  | line (data : List (ℚ × ℚ)) (x y : String) (markers : Bool) (template title : String)
  | violinEmpty (title : String)
  | violin (rows : List (Row × String)) (x y color template title : String)
  | annotOnly (text : String)
  | sunburst (ids labels parents : List String) (values : List Nat)
      (branchvalues template title : String)
  | polar (traces : List PolarTrace) (template title : String)
deriving DecidableEq, Repr

/-- The numeric column of a row named by one of the numeric dataset columns
(total with default `0`; only applied to names of numeric columns). -/
def numCol : String → Row → ℚ
  | "study_hours_per_day" => Row.study_hours_per_day
  | "sleep_hours" => Row.sleep_hours
  | "social_media_hours" => Row.social_media_hours
  | "exam_score" => Row.exam_score
  | "attendance_percentage" => Row.attendance_percentage
  | "mental_health_rating" => Row.mental_health_rating
  | _ => fun _ => 0

/-- `plots.create_scatter_plot`. -/
def create_scatter_plot (filtered_df : Frame) (template : String) : Fig :=
  if filtered_df.isEmptyF then
    .scatterEmpty "Wpływ czasu nauki na wynik egzaminu (Brak danych)"
  else
    .scatter filtered_df.rows "study_hours_per_day" "exam_score" "gender"
      ["social_media_hours", "sleep_hours"] template "Wpływ czasu nauki na wynik egzaminu"

/-- `plots.create_box_plot`. -/
def create_box_plot (filtered_df : Frame) (template : String) : Fig :=
  if filtered_df.isEmptyF then
    .boxEmpty "Rozkład wyników egzaminu względem płci (Brak danych)"
  else
    .box filtered_df.rows "gender" "exam_score" "gender" template
      "Rozkład wyników egzaminu względem płci"

/-- `plots.create_heatmap`: placeholder `[[0]]` on the empty frame and when
fewer than two of `HEATMAP_NUMERIC_COLS` are present; otherwise the
correlation heatmap over exactly the available numeric columns. -/
def create_heatmap (filtered_df : Frame) (template : String) : Fig :=
  if filtered_df.isEmptyF then
    .imshow [[0]] "Korelacje między cechami (Brak danych)"
  else
    let available_columns :=
      config.HEATMAP_NUMERIC_COLS.filter (fun c => decide (c ∈ filtered_df.cols))
    if available_columns.length < 2 then
      .imshow [[0]] "Korelacje między cechami (Niewystarczające dane)"
    else
      .imshowCorr (available_columns.map (fun c => (c, filtered_df.rows.map (numCol c))))
        template "Korelacje między cechami"

/-- `plots.create_exam_score_histogram`. -/
def create_exam_score_histogram (filtered_df : Frame) (template : String) : Fig :=
  if filtered_df.isEmptyF then
    .histogramEmpty "Rozkład wyników egzaminu (Brak danych)"
  else
    .histogram filtered_df.rows "exam_score" "gender" 20 "overlay" (3/5) template
      "Rozkład wyników egzaminu wg płci"

/-- `groupby("parental_education_level")["exam_score"].mean()`: each distinct
education level (keys in ascending order, as pandas sorts group keys) with
the mean exam score of its group. -/
def avg_scores_by_edu (rows : List Row) : List (String × ℚ) :=
  (sortedKeys rows Row.parental_education_level).map (fun k =>
    (k, mean ((rows.filter (fun r => decide (r.parental_education_level = k))).map
      Row.exam_score)))

/-- `plots.create_bar_avg_score_by_edu`: the per-level mean exam scores,
sorted ascending by mean (`.sort_values()`). -/
def create_bar_avg_score_by_edu (filtered_df : Frame) (template : String) : Fig :=
  if filtered_df.isEmptyF then
    .barEmpty "Średnie wyniki wg poziomu edukacji rodziców (Brak danych)"
  else
    .bar ((avg_scores_by_edu filtered_df.rows).insertionSort (fun a b => a.2 ≤ b.2))
      "parental_education_level" "exam_score" template
      "Średnie wyniki egzaminów wg wykształcenia rodziców"

/-- `plots.create_sleep_vs_score_lineplot`: mean exam score per rounded
sleep-hours value. -/
def create_sleep_vs_score_lineplot (filtered_df : Frame) (template : String) : Fig :=
  if filtered_df.isEmptyF then
    .lineEmpty "Średni wynik vs liczba godzin snu (Brak danych)"
  else
    .line ((sortedRatKeys filtered_df.rows (fun r => pyRound r.sleep_hours)).map (fun k =>
        (k, mean ((filtered_df.rows.filter
          (fun r => decide (pyRound r.sleep_hours = k))).map Row.exam_score))))
      "sleep_hours_rounded" "exam_score" true template
      "Średni wynik egzaminu w zależności od liczby godzin snu"

/-- `pd.cut(exam_score, bins=[0, 60, 75, 85, 100], labels=...)`: right-closed,
left-open intervals; values outside every bin get no category (NaN). -/
def score_category (s : ℚ) : Option String :=
  if 0 < s ∧ s ≤ 60 then some "Słaby (0-60)"
  else if 60 < s ∧ s ≤ 75 then some "Średni (60-75)"
  else if 75 < s ∧ s ≤ 85 then some "Dobry (75-85)"
  else if 85 < s ∧ s ≤ 100 then some "Bardzo dobry (85-100)"
  else none

/-- `plots.create_attendance_violin_plot`: rows with their score category,
rows without a category dropped (`dropna(subset=['score_category'])`). -/
def create_attendance_violin_plot (filtered_df : Frame) (template : String) : Fig :=
  if filtered_df.isEmptyF then
    .violinEmpty "Rozkład frekwencji wg wyników egzaminu (Brak danych)"
  else
    .violin (filtered_df.rows.filterMap (fun r =>
        (score_category r.exam_score).map (fun c => (r, c))))
      "score_category" "attendance_percentage" "score_category" template
      "Rozkład frekwencji w różnych kategoriach wyników"

/-- `groupby(['part_time_job', 'gender']).size()`: each distinct
(job, gender) pair with its row count. -/
def job_gender_counts (rows : List Row) : List ((String × String) × Nat) :=
  (sortedPairKeys rows).map (fun p =>
    (p, (rows.filter (fun r =>
      decide (r.part_time_job = p.1) && decide (r.gender = p.2))).length))

/-- `groupby('part_time_job').size()`: each distinct job value with its row
count. -/
def job_totals (rows : List Row) : List (String × Nat) :=
  (sortedKeys rows Row.part_time_job).map (fun k =>
    (k, (rows.filter (fun r => decide (r.part_time_job = k))).length))

/-- `plots.create_job_sunburst_chart`: the `go.Sunburst` trace built from the
child entries (one per (job, gender) pair) followed by the root entries (one
per job value), with `branchvalues="total"`. -/
def create_job_sunburst_chart (filtered_df : Frame) (template : String) : Fig :=
  if filtered_df.isEmptyF then
    .annotOnly "Struktura studentów: praca vs płeć (Brak danych)"
  else
    let children := job_gender_counts filtered_df.rows
    let roots := job_totals filtered_df.rows
    .sunburst
      (children.map (fun pc => pc.1.1 ++ " - " ++ pc.1.2) ++ roots.map (fun kt => kt.1))
      (children.map (fun pc => pc.1.2) ++ roots.map (fun kt => "Praca: " ++ kt.1))
      (children.map (fun pc => pc.1.1) ++ roots.map (fun _ => ""))
      (children.map (fun pc => pc.2) ++ roots.map (fun kt => kt.2))
      "total" template "Struktura studentów: Status pracy i płeć"

/-- The five radar-axis labels of the polar chart. -/
def polarCategories : List String :=
  ["Wynik egzaminu", "Godziny nauki", "Godziny snu", "Frekwencja", "Mniej social media"]

/-- The trace colour cycle of the polar chart. -/
def polarColors : List String :=
  ["red", "orange", "yellow", "lightgreen", "green", "darkgreen", "blue", "purple",
   "pink", "brown"]

/-- `plots.create_mental_health_polar_chart`: one closed `Scatterpolar` trace
per distinct `mental_health_rating`, with the group means normalised as in the
source (`/10`, `*2`, `*1.25`, `/10`, and `10 - mean` for social media). -/
def create_mental_health_polar_chart (filtered_df : Frame) (template : String) : Fig :=
  if filtered_df.isEmptyF || !(decide ("mental_health_rating" ∈ filtered_df.cols)) then
    .annotOnly "Metryki wg kondycji psychicznej (Brak danych)"
  else
    let groups := sortedRatKeys filtered_df.rows Row.mental_health_rating
    let traces := groups.enum.map (fun ig =>
      let sub := filtered_df.rows.filter (fun r => decide (r.mental_health_rating = ig.2))
      let values := [mean (sub.map Row.exam_score) / 10,
                     mean (sub.map Row.study_hours_per_day) * 2,
                     mean (sub.map Row.sleep_hours) * (5/4),
                     mean (sub.map Row.attendance_percentage) / 10,
                     10 - mean (sub.map Row.social_media_hours)]
      { r := values ++ [mean (sub.map Row.exam_score) / 10]
        theta := polarCategories ++ ["Wynik egzaminu"]
        name := "Kondycja psychiczna: " ++ toString (pyInt ig.2)
        line_color := polarColors.getD (ig.1 % polarColors.length) "" : PolarTrace })
    .polar traces template "Profil różnych metryk wg oceny kondycji psychicznej"

end plots

namespace callbacks

/-- `callbacks.update_main_stylesheet`: the Bootstrap stylesheet for a theme
name, `THEMES[theme_name]` when the name is a key of `THEMES` and `FLATLY`
otherwise (stylesheets identified by their Bootstrap theme name). -/
def update_main_stylesheet (theme_name : String) : String :=
  match config.THEMES.lookup theme_name with
  | some s => s
  | none => "FLATLY"

/-- The twelve outputs of the main callback: nine figures and the three KPI
strings. -/
structure VisualsOutput where
  scatter_fig : plots.Fig
  box_fig : plots.Fig
  heatmap_fig : plots.Fig
  histogram_fig : plots.Fig
  barchart_fig : plots.Fig
  line_fig : plots.Fig
  attendance_fig : plots.Fig
  job_fig : plots.Fig
  mental_fig : plots.Fig
  student_count : String
  avg_score : String
  avg_study_hours : String
deriving DecidableEq, Repr

/-- `callbacks.update_all_visuals`: choose the plotly template from the stored
theme, filter the data, compute the three KPIs, and build the nine charts. -/
def update_all_visuals (df : Option Frame)
    (selected_gender selected_edu : Option (List String)) (study_hours_range : List ℚ)
    (selected_job : Option (List String)) (theme_name : String) : VisualsOutput :=
  let template := if theme_name = "Ciemny" then "plotly_dark" else "plotly_white"
  let filtered_df :=
    data_manager.filter_data df selected_gender selected_edu study_hours_range selected_job
  let student_count := if filtered_df.isEmptyF then "0" else toString filtered_df.rows.length
  let avg_score := if filtered_df.isEmptyF then "N/A"
    else fmt2 (mean (filtered_df.rows.map Row.exam_score))
  let avg_study_hours := if filtered_df.isEmptyF then "N/A"
    else fmt2 (mean (filtered_df.rows.map Row.study_hours_per_day))
  { scatter_fig := plots.create_scatter_plot filtered_df template
    box_fig := plots.create_box_plot filtered_df template
    heatmap_fig := plots.create_heatmap filtered_df template
    histogram_fig := plots.create_exam_score_histogram filtered_df template
    barchart_fig := plots.create_bar_avg_score_by_edu filtered_df template
    line_fig := plots.create_sleep_vs_score_lineplot filtered_df template
    attendance_fig := plots.create_attendance_violin_plot filtered_df template
    job_fig := plots.create_job_sunburst_chart filtered_df template
    mental_fig := plots.create_mental_health_polar_chart filtered_df template
    student_count := student_count
    avg_score := avg_score
    avg_study_hours := avg_study_hours }

end callbacks

/-- The outcome of `pd.read_csv` on the dataset path: the file may be absent
(`FileNotFoundError`), empty (`pd.errors.EmptyDataError`), unreadable for any
other reason (the generic `except Exception` handler), or parsed into a
frame. -/
inductive ReadCsvResult where
  | fileNotFound
  | emptyDataError
  | otherError
  | ok (df : Frame)
deriving DecidableEq, Repr

namespace data_manager

/-- `data_manager.load_validated_data`: every read error yields `None`; a
parsed frame is rejected (`None`) when a required column is missing or when
it has no rows, and returned otherwise. -/
def load_validated_data (read : ReadCsvResult) : Option Frame :=
  match read with
  | .fileNotFound => none
  | .emptyDataError => none
  | .otherError => none
  | .ok df =>
    let missing_columns := config.REQUIRED_COLUMNS.filter (fun c => decide (c ∉ df.cols))
    if !missing_columns.isEmpty then none
    else if df.isEmptyF then none
    else some df

end data_manager

namespace app

/-- What `app.py` mounts as the page: the dashboard layout built from the
frame, or the static error layout. -/
inductive Page where
  | dashboard (df : Frame)
  | errorPage
deriving DecidableEq, Repr

/-- `page_content = create_layout(df) if df is not None else
create_error_layout()`. -/
def page_content (df : Option Frame) : Page :=
  match df with
  | some d => .dashboard d
  | none => .errorPage

/-- `if df is not None: register_callbacks(app, df)` — whether the data
callbacks are registered. -/
def dataCallbacksRegistered (df : Option Frame) : Bool := (df : Option Frame).isSome

end app

/-! ### A heap of frames

`filter_data` is claimed to leave its input frame untouched.  To make that a
statement rather than a triviality of the pure embedding, the pandas objects
live in an explicit heap (a list of frames addressed by position), and every
pandas operation the function performs — `df.copy()` and the four boolean-mask
selections — is a heap operation.  Each of them only allocates a new cell;
none writes to an existing one. -/

/-- Read a heap cell (out-of-range reads give the empty frame; never reached
with well-formed references). -/
def heapGet (h : List Frame) (i : Nat) : Frame := h.getD i Frame.emptyFrame

/-- Allocate a fresh cell holding `f`, returning the heap and the new
reference. -/
def alloc (h : List Frame) (f : Frame) : List Frame × Nat := (h ++ [f], h.length)

/-- `df.copy()`: allocate a fresh cell with the same contents. -/
def copyOp (h : List Frame) (i : Nat) : List Frame × Nat := alloc h (heapGet h i)

/-- A guarded boolean-mask selection `if b: df = df[mask]` on the frame a
reference points to: when the guard holds, allocate the selected frame (pandas
`df[mask]` builds a new object); otherwise keep the reference. -/
def maskIf (hc : List Frame × Nat) (b : Bool) (p : Row → Bool) : List Frame × Nat :=
  if b then alloc hc.1 ((heapGet hc.1 hc.2).filterRows p) else hc

namespace data_manager

/-- `data_manager.filter_data` rephrased over the heap: the same guards and
masks as `filter_data`, with every intermediate frame allocated in the
heap. -/
def filter_data_heap (h : List Frame) (df : Option Nat)
    (selected_gender selected_edu : Option (List String)) (study_hours_range : List ℚ)
    (selected_job : Option (List String)) : List Frame × Nat :=
  match df with
  | none => alloc h Frame.emptyFrame
  | some i =>
    if (heapGet h i).isEmptyF then alloc h Frame.emptyFrame
    else
      let c1 := copyOp h i
      let c2 := maskIf c1 (pyTruthy selected_gender)
        (fun r => decide (r.gender ∈ selected_gender.getD []))
      let c3 := maskIf c2 (pyTruthy selected_edu)
        (fun r => decide (r.parental_education_level ∈ selected_edu.getD []))
      let c4 := maskIf c3 (pyTruthy selected_job)
        (fun r => decide (r.part_time_job ∈ selected_job.getD []))
      match study_hours_range with
      | [lo, hi] =>
        maskIf c4 true (fun r =>
          decide (lo ≤ r.study_hours_per_day) && decide (r.study_hours_per_day ≤ hi))
      | _ => c4

end data_manager

/-! ## Theorems -/

/-- The two `filter_data` functions (module and class variants) are the same
function. -/
theorem filter_data_class_eq_module :
    StudentPerformanceDashboard.filter_data = data_manager.filter_data := rfl

/-- On a frame with rows, `filter_data` is one filter by the conjunction of
the active filters. -/
theorem filter_data_eq_filter (d : Frame) (g e : Option (List String)) (shr : List ℚ)
    (j : Option (List String)) (hd : d.rows ≠ []) :
    data_manager.filter_data (some d) g e shr j =
      ⟨d.cols, d.rows.filter (activeFilterPred g e shr j)⟩ := by
  obtain ⟨cols, rows⟩ := d
  have hne : (Frame.mk cols rows).isEmptyF = false := by
    simpa [Frame.isEmptyF, List.isEmpty_iff] using hd
  cases hg : pyTruthy g <;> cases he : pyTruthy e <;> cases hj : pyTruthy j <;>
    rcases shr with _ | ⟨lo, _ | ⟨hi, _ | ⟨x, t⟩⟩⟩ <;>
      · simp only [data_manager.filter_data, hne, Bool.false_eq_true, if_false, hg, he, hj,
          if_true, Frame.filterRows, List.filter_filter]
        congr 1
        first
        | exact (List.filter_eq_self.mpr (fun r _ => by
            simp [activeFilterPred, hg, he, hj])).symm
        | apply List.filter_congr
          intro r _
          simp [activeFilterPred, hg, he, hj, Bool.and_comm, Bool.and_left_comm, Bool.and_assoc]

/-- C1: for every loaded frame and filter selection, `filter_data` returns
exactly the rows satisfying the conjunction of the active filters — gender,
parental education and part-time job memberships each applied only when the
selection list is non-empty, and the inclusive study-hours bounds applied
only when the range list has exactly two elements — keeping the columns; and
for a `None` or empty input it returns an empty frame.  The `main.py` class
method behaves identically. -/
theorem claim_C1 (d : Frame) (g e : Option (List String)) (shr : List ℚ)
    (j : Option (List String)) :
    data_manager.filter_data none g e shr j = Frame.emptyFrame ∧
    (d.rows = [] → data_manager.filter_data (some d) g e shr j = Frame.emptyFrame) ∧
    (d.rows ≠ [] → data_manager.filter_data (some d) g e shr j =
      ⟨d.cols, d.rows.filter (activeFilterPred g e shr j)⟩) ∧
    StudentPerformanceDashboard.filter_data (some d) g e shr j =
      data_manager.filter_data (some d) g e shr j := by
  refine ⟨rfl, ?_, fun hd => filter_data_eq_filter d g e shr j hd,
    by rw [filter_data_class_eq_module]⟩
  intro hd
  rcases shr with _ | ⟨a, _ | ⟨b, _ | ⟨c, t⟩⟩⟩ <;>
    simp [data_manager.filter_data, Frame.isEmptyF, hd]

/-- Witness for C1: on a two-row frame, filtering by gender `Female` and
study hours in `[1, 4]` keeps exactly the matching row. -/
theorem claim_C1_witness :
    data_manager.filter_data
        (some ⟨config.REQUIRED_COLUMNS,
          [⟨"Female", "High School", 2, 80, 1, 7, 90, "Yes", 5⟩,
           ⟨"Male", "Bachelor", 5, 90, 2, 6, 95, "No", 7⟩]⟩)
        (some ["Female"]) none [1, 4] none =
      ⟨config.REQUIRED_COLUMNS,
        List.filter (activeFilterPred (some ["Female"]) none [1, 4] none)
          [⟨"Female", "High School", 2, 80, 1, 7, 90, "Yes", 5⟩,
           ⟨"Male", "Bachelor", 5, 90, 2, 6, 95, "No", 7⟩]⟩ :=
  (claim_C1 _ (some ["Female"]) none [1, 4] none).2.2.1 (by decide)

/-- C10: a study-hours range list whose length is not 2 silently disables the
range filter: `filter_data` behaves as with no range at all, and on a frame
with rows it applies exactly the three categorical filters. -/
theorem claim_C10 (d : Option Frame) (g e j : Option (List String)) (shr : List ℚ)
    (h : shr.length ≠ 2) :
    data_manager.filter_data d g e shr j = data_manager.filter_data d g e [] j ∧
    ∀ fr : Frame, d = some fr → fr.rows ≠ [] →
      data_manager.filter_data d g e shr j =
        ⟨fr.cols, fr.rows.filter (categoricalFilterPred g e j)⟩ := by
  constructor
  · cases d with
    | none => rfl
    | some fr =>
      rcases shr with _ | ⟨a, _ | ⟨b, _ | ⟨c, t⟩⟩⟩
      · rfl
      · rfl
      · simp at h
      · rfl
  · rintro fr rfl hne
    rw [filter_data_eq_filter fr g e shr j hne]
    congr 1
    apply List.filter_congr
    intro r _
    rcases shr with _ | ⟨a, _ | ⟨b, _ | ⟨c, t⟩⟩⟩
    · simp [activeFilterPred, categoricalFilterPred, Bool.and_assoc]
    · simp [activeFilterPred, categoricalFilterPred, Bool.and_assoc]
    · simp at h
    · simp [activeFilterPred, categoricalFilterPred, Bool.and_assoc]

/-- Witness for C10: a one-element range list is skipped and only the
part-time-job filter applies. -/
theorem claim_C10_witness :
    data_manager.filter_data
        (some ⟨config.REQUIRED_COLUMNS,
          [⟨"Female", "High School", 2, 80, 1, 7, 90, "Yes", 5⟩,
           ⟨"Male", "Bachelor", 5, 90, 2, 6, 95, "No", 7⟩]⟩)
        none none [1] (some ["No"]) =
      ⟨config.REQUIRED_COLUMNS,
        List.filter (categoricalFilterPred none none (some ["No"]))
          [⟨"Female", "High School", 2, 80, 1, 7, 90, "Yes", 5⟩,
           ⟨"Male", "Bachelor", 5, 90, 2, 6, 95, "No", 7⟩]⟩ :=
  (claim_C10 _ none none (some ["No"]) [1] (by decide)).2 _ rfl (by decide)

/-- C2: every one of the nine chart builders, fed an empty frame, returns its
placeholder figure — a title-only or annotation-only chart whose title or
text carries `(Brak danych)` — and hands no data to any transform: the
placeholder constructors carry no frame data at all. -/
theorem claim_C2 (d : Frame) (tpl : String) (h : d.rows = []) :
    plots.create_scatter_plot d tpl =
      .scatterEmpty "Wpływ czasu nauki na wynik egzaminu (Brak danych)" ∧
    plots.create_box_plot d tpl =
      .boxEmpty "Rozkład wyników egzaminu względem płci (Brak danych)" ∧
    plots.create_heatmap d tpl = .imshow [[0]] "Korelacje między cechami (Brak danych)" ∧
    plots.create_exam_score_histogram d tpl =
      .histogramEmpty "Rozkład wyników egzaminu (Brak danych)" ∧
    plots.create_bar_avg_score_by_edu d tpl =
      .barEmpty "Średnie wyniki wg poziomu edukacji rodziców (Brak danych)" ∧
    plots.create_sleep_vs_score_lineplot d tpl =
      .lineEmpty "Średni wynik vs liczba godzin snu (Brak danych)" ∧
    plots.create_attendance_violin_plot d tpl =
      .violinEmpty "Rozkład frekwencji wg wyników egzaminu (Brak danych)" ∧
    plots.create_job_sunburst_chart d tpl =
      .annotOnly "Struktura studentów: praca vs płeć (Brak danych)" ∧
    plots.create_mental_health_polar_chart d tpl =
      .annotOnly "Metryki wg kondycji psychicznej (Brak danych)" := by
  have he : d.isEmptyF = true := by simp [Frame.isEmptyF, h]
  refine ⟨?_, ?_, ?_, ?_, ?_, ?_, ?_, ?_, ?_⟩ <;>
    simp [plots.create_scatter_plot, plots.create_box_plot, plots.create_heatmap,
      plots.create_exam_score_histogram, plots.create_bar_avg_score_by_edu,
      plots.create_sleep_vs_score_lineplot, plots.create_attendance_violin_plot,
      plots.create_job_sunburst_chart, plots.create_mental_health_polar_chart, he]

/-- Witness for C2: the nine placeholders on the empty frame. -/
theorem claim_C2_witness :
    plots.create_scatter_plot Frame.emptyFrame "plotly_white" =
      .scatterEmpty "Wpływ czasu nauki na wynik egzaminu (Brak danych)" ∧
    plots.create_box_plot Frame.emptyFrame "plotly_white" =
      .boxEmpty "Rozkład wyników egzaminu względem płci (Brak danych)" ∧
    plots.create_heatmap Frame.emptyFrame "plotly_white" =
      .imshow [[0]] "Korelacje między cechami (Brak danych)" ∧
    plots.create_exam_score_histogram Frame.emptyFrame "plotly_white" =
      .histogramEmpty "Rozkład wyników egzaminu (Brak danych)" ∧
    plots.create_bar_avg_score_by_edu Frame.emptyFrame "plotly_white" =
      .barEmpty "Średnie wyniki wg poziomu edukacji rodziców (Brak danych)" ∧
    plots.create_sleep_vs_score_lineplot Frame.emptyFrame "plotly_white" =
      .lineEmpty "Średni wynik vs liczba godzin snu (Brak danych)" ∧
    plots.create_attendance_violin_plot Frame.emptyFrame "plotly_white" =
      .violinEmpty "Rozkład frekwencji wg wyników egzaminu (Brak danych)" ∧
    plots.create_job_sunburst_chart Frame.emptyFrame "plotly_white" =
      .annotOnly "Struktura studentów: praca vs płeć (Brak danych)" ∧
    plots.create_mental_health_polar_chart Frame.emptyFrame "plotly_white" =
      .annotOnly "Metryki wg kondycji psychicznej (Brak danych)" :=
  claim_C2 Frame.emptyFrame "plotly_white" rfl

/-- C3: the main callback recomputes the three KPIs from the filtered data:
on a non-empty filtered frame the student count is the row count as a string
and the two averages are the means of `exam_score` and `study_hours_per_day`
formatted to two decimal places; on an empty filtered frame they are `"0"`,
`"N/A"`, `"N/A"`. -/
theorem claim_C3 (df : Frame) (g e : Option (List String)) (shr : List ℚ)
    (j : Option (List String)) (theme : String) :
    ((data_manager.filter_data (some df) g e shr j).rows = [] →
      (callbacks.update_all_visuals (some df) g e shr j theme).student_count = "0" ∧
      (callbacks.update_all_visuals (some df) g e shr j theme).avg_score = "N/A" ∧
      (callbacks.update_all_visuals (some df) g e shr j theme).avg_study_hours = "N/A") ∧
    ((data_manager.filter_data (some df) g e shr j).rows ≠ [] →
      (callbacks.update_all_visuals (some df) g e shr j theme).student_count =
        toString (data_manager.filter_data (some df) g e shr j).rows.length ∧
      (callbacks.update_all_visuals (some df) g e shr j theme).avg_score =
        fmt2 (mean ((data_manager.filter_data (some df) g e shr j).rows.map
          Row.exam_score)) ∧
      (callbacks.update_all_visuals (some df) g e shr j theme).avg_study_hours =
        fmt2 (mean ((data_manager.filter_data (some df) g e shr j).rows.map
          Row.study_hours_per_day))) := by
  constructor
  · intro hfd
    have hE : (data_manager.filter_data (some df) g e shr j).isEmptyF = true := by
      simp [Frame.isEmptyF, hfd]
    simp [callbacks.update_all_visuals, hE]
  · intro hfd
    have hE : (data_manager.filter_data (some df) g e shr j).isEmptyF = false := by
      simp [Frame.isEmptyF, List.isEmpty_iff, hfd]
    simp [callbacks.update_all_visuals, hE]

/-- Witness for C3: on a two-row frame with no active filter the KPIs are the
row count `"2"`, mean exam score `"85.00"` and mean study hours `"3.50"`. -/
theorem claim_C3_witness :
    (callbacks.update_all_visuals
        (some ⟨config.REQUIRED_COLUMNS,
          [⟨"Female", "High School", 2, 80, 1, 7, 90, "Yes", 5⟩,
           ⟨"Male", "Bachelor", 5, 90, 2, 6, 95, "No", 7⟩]⟩)
        none none [] none "Jasny").student_count = "2" ∧
    (callbacks.update_all_visuals
        (some ⟨config.REQUIRED_COLUMNS,
          [⟨"Female", "High School", 2, 80, 1, 7, 90, "Yes", 5⟩,
           ⟨"Male", "Bachelor", 5, 90, 2, 6, 95, "No", 7⟩]⟩)
        none none [] none "Jasny").avg_score = "85.00" ∧
    (callbacks.update_all_visuals
        (some ⟨config.REQUIRED_COLUMNS,
          [⟨"Female", "High School", 2, 80, 1, 7, 90, "Yes", 5⟩,
           ⟨"Male", "Bachelor", 5, 90, 2, 6, 95, "No", 7⟩]⟩)
        none none [] none "Jasny").avg_study_hours = "3.50" := by
  obtain ⟨h1, h2, h3⟩ :=
    (claim_C3 ⟨config.REQUIRED_COLUMNS,
        [⟨"Female", "High School", 2, 80, 1, 7, 90, "Yes", 5⟩,
         ⟨"Male", "Bachelor", 5, 90, 2, 6, 95, "No", 7⟩]⟩
      none none [] none "Jasny").2 (by decide)
  have hfd : data_manager.filter_data
      (some ⟨config.REQUIRED_COLUMNS,
        [⟨"Female", "High School", 2, 80, 1, 7, 90, "Yes", 5⟩,
         ⟨"Male", "Bachelor", 5, 90, 2, 6, 95, "No", 7⟩]⟩) none none [] none =
      ⟨config.REQUIRED_COLUMNS,
        [⟨"Female", "High School", 2, 80, 1, 7, 90, "Yes", 5⟩,
         ⟨"Male", "Bachelor", 5, 90, 2, 6, 95, "No", 7⟩]⟩ := by decide
  rw [hfd] at h1 h2 h3
  refine ⟨?_, ?_, ?_⟩
  · rw [h1]; decide
  · rw [h2]
    have hm : mean [(80 : ℚ), 90] = 85 := by norm_num [mean]
    show fmt2 (mean [(80 : ℚ), 90]) = "85.00"
    rw [hm]; decide
  · rw [h3]
    have hm : mean [(2 : ℚ), 5] = 7 / 2 := by norm_num [mean]
    show fmt2 (mean [(2 : ℚ), 5]) = "3.50"
    rw [hm]
    have h72 : (7 / 2 : ℚ) = (⟨7, 2, by decide, by decide⟩ : ℚ) := by
      rw [Rat.mk'_eq_divInt, Rat.divInt_eq_div]; norm_num
    rw [h72]; decide

/-- C7: theming is a total lookup — `update_main_stylesheet` maps `"Jasny"`
to `FLATLY`, `"Ciemny"` to `DARKLY` and everything else to `FLATLY`; and the
template handed to every one of the nine chart builders by the main callback
is `"plotly_dark"` exactly when the stored theme is `"Ciemny"`, and
`"plotly_white"` otherwise. -/
theorem claim_C7 (name theme : String) (df : Option Frame)
    (g e : Option (List String)) (shr : List ℚ) (j : Option (List String)) :
    callbacks.update_main_stylesheet "Jasny" = "FLATLY" ∧
    callbacks.update_main_stylesheet "Ciemny" = "DARKLY" ∧
    (name ≠ "Jasny" → name ≠ "Ciemny" →
      callbacks.update_main_stylesheet name = "FLATLY") ∧
    ((if theme = "Ciemny" then "plotly_dark" else "plotly_white") = "plotly_dark" ↔
      theme = "Ciemny") ∧
    (callbacks.update_all_visuals df g e shr j theme).scatter_fig =
      plots.create_scatter_plot (data_manager.filter_data df g e shr j)
        (if theme = "Ciemny" then "plotly_dark" else "plotly_white") ∧
    (callbacks.update_all_visuals df g e shr j theme).box_fig =
      plots.create_box_plot (data_manager.filter_data df g e shr j)
        (if theme = "Ciemny" then "plotly_dark" else "plotly_white") ∧
    (callbacks.update_all_visuals df g e shr j theme).heatmap_fig =
      plots.create_heatmap (data_manager.filter_data df g e shr j)
        (if theme = "Ciemny" then "plotly_dark" else "plotly_white") ∧
    (callbacks.update_all_visuals df g e shr j theme).histogram_fig =
      plots.create_exam_score_histogram (data_manager.filter_data df g e shr j)
        (if theme = "Ciemny" then "plotly_dark" else "plotly_white") ∧
    (callbacks.update_all_visuals df g e shr j theme).barchart_fig =
      plots.create_bar_avg_score_by_edu (data_manager.filter_data df g e shr j)
        (if theme = "Ciemny" then "plotly_dark" else "plotly_white") ∧
    (callbacks.update_all_visuals df g e shr j theme).line_fig =
      plots.create_sleep_vs_score_lineplot (data_manager.filter_data df g e shr j)
        (if theme = "Ciemny" then "plotly_dark" else "plotly_white") ∧
    (callbacks.update_all_visuals df g e shr j theme).attendance_fig =
      plots.create_attendance_violin_plot (data_manager.filter_data df g e shr j)
        (if theme = "Ciemny" then "plotly_dark" else "plotly_white") ∧
    (callbacks.update_all_visuals df g e shr j theme).job_fig =
      plots.create_job_sunburst_chart (data_manager.filter_data df g e shr j)
        (if theme = "Ciemny" then "plotly_dark" else "plotly_white") ∧
    (callbacks.update_all_visuals df g e shr j theme).mental_fig =
      plots.create_mental_health_polar_chart (data_manager.filter_data df g e shr j)
        (if theme = "Ciemny" then "plotly_dark" else "plotly_white") := by
  refine ⟨rfl, rfl, ?_, ?_, rfl, rfl, rfl, rfl, rfl, rfl, rfl, rfl, rfl⟩
  · intro h1 h2
    have b1 : (name == "Jasny") = false := by simp [h1]
    have b2 : (name == "Ciemny") = false := by simp [h2]
    simp [callbacks.update_main_stylesheet, config.THEMES, List.lookup, b1, b2]
  · constructor
    · intro h
      by_contra hne
      simp [hne] at h
    · intro h
      simp [h]

/-- Witness for C7: the fallback at the unknown theme name `"Solar"` and the
dark template under `"Ciemny"`, on a concrete frame. -/
theorem claim_C7_witness :
    callbacks.update_main_stylesheet "Solar" = "FLATLY" ∧
    (callbacks.update_all_visuals (some ⟨config.REQUIRED_COLUMNS, []⟩)
        none none [] none "Ciemny").scatter_fig =
      plots.create_scatter_plot
        (data_manager.filter_data (some ⟨config.REQUIRED_COLUMNS, []⟩) none none [] none)
        (if "Ciemny" = "Ciemny" then "plotly_dark" else "plotly_white") := by
  have h := claim_C7 "Solar" "Ciemny" (some ⟨config.REQUIRED_COLUMNS, []⟩) none none [] none
  exact ⟨h.2.2.1 (by decide) (by decide), h.2.2.2.2.1⟩

/-- C4: every failed load — missing CSV, empty CSV, any other read error, a
required column absent, or a dataset with no rows — makes
`load_validated_data` return `None`; the application then mounts the static
error layout and registers no data callbacks. -/
theorem claim_C4 (r : ReadCsvResult) :
    (data_manager.load_validated_data r = none ↔
      r = .fileNotFound ∨ r = .emptyDataError ∨ r = .otherError ∨
      ∃ df : Frame, r = .ok df ∧
        ((∃ c ∈ config.REQUIRED_COLUMNS, c ∉ df.cols) ∨ df.rows = [])) ∧
    (data_manager.load_validated_data r = none →
      app.page_content (data_manager.load_validated_data r) = .errorPage ∧
      app.dataCallbacksRegistered (data_manager.load_validated_data r) = false) := by
  constructor
  · cases r with
    | fileNotFound => simp [data_manager.load_validated_data]
    | emptyDataError => simp [data_manager.load_validated_data]
    | otherError => simp [data_manager.load_validated_data]
    | ok df =>
      have hmiss : (∃ c ∈ config.REQUIRED_COLUMNS, c ∉ df.cols) ↔
          config.REQUIRED_COLUMNS.filter (fun c => decide (c ∉ df.cols)) ≠ [] := by
        constructor
        · rintro ⟨c, hc, hnc⟩ hnil
          rw [List.filter_eq_nil_iff] at hnil
          exact (hnil c hc) (by simpa using hnc)
        · intro hne
          obtain ⟨c, hc⟩ := List.exists_mem_of_ne_nil _ hne
          have hcf := List.mem_filter.mp hc
          exact ⟨c, hcf.1, by simpa using hcf.2⟩
      by_cases hm : config.REQUIRED_COLUMNS.filter (fun c => decide (c ∉ df.cols)) = [] <;>
        by_cases hre : df.rows = []
      · have hload : data_manager.load_validated_data (.ok df) = none := by
          have h1 : (config.REQUIRED_COLUMNS.filter
              (fun c => decide (c ∉ df.cols))).isEmpty = true := by rw [hm]; rfl
          have h2 : df.isEmptyF = true := by simp [Frame.isEmptyF, hre]
          simp only [data_manager.load_validated_data]
          rw [h1, h2]
          rfl
        rw [hload]
        exact iff_of_true rfl (Or.inr (Or.inr (Or.inr ⟨df, rfl, Or.inr hre⟩)))
      · have hload : data_manager.load_validated_data (.ok df) = some df := by
          have h1 : (config.REQUIRED_COLUMNS.filter
              (fun c => decide (c ∉ df.cols))).isEmpty = true := by rw [hm]; rfl
          have h2 : df.isEmptyF = false := by
            simp [Frame.isEmptyF, List.isEmpty_iff, hre]
          simp only [data_manager.load_validated_data]
          rw [h1, h2]
          rfl
        rw [hload]
        apply iff_of_false
        · simp
        · rintro (h | h | h | ⟨df1, hdf, hbad⟩)
          · exact ReadCsvResult.noConfusion h
          · exact ReadCsvResult.noConfusion h
          · exact ReadCsvResult.noConfusion h
          · injection hdf with hdf1
            subst hdf1
            rcases hbad with hb | hb
            · exact (hmiss.mp hb) hm
            · exact hre hb
      · have hload : data_manager.load_validated_data (.ok df) = none := by
          have h1 : (config.REQUIRED_COLUMNS.filter
              (fun c => decide (c ∉ df.cols))).isEmpty = false := by
            rcases hq : config.REQUIRED_COLUMNS.filter (fun c => decide (c ∉ df.cols)) with
              _ | ⟨a, t⟩
            · exact absurd hq hm
            · rfl
          simp only [data_manager.load_validated_data]
          rw [h1]
          rfl
        rw [hload]
        exact iff_of_true rfl (Or.inr (Or.inr (Or.inr ⟨df, rfl, Or.inl (hmiss.mpr hm)⟩)))
      · have hload : data_manager.load_validated_data (.ok df) = none := by
          have h1 : (config.REQUIRED_COLUMNS.filter
              (fun c => decide (c ∉ df.cols))).isEmpty = false := by
            rcases hq : config.REQUIRED_COLUMNS.filter (fun c => decide (c ∉ df.cols)) with
              _ | ⟨a, t⟩
            · exact absurd hq hm
            · rfl
          simp only [data_manager.load_validated_data]
          rw [h1]
          rfl
        rw [hload]
        exact iff_of_true rfl (Or.inr (Or.inr (Or.inr ⟨df, rfl, Or.inl (hmiss.mpr hm)⟩)))
  · intro h
    rw [h]
    exact ⟨rfl, rfl⟩

/-- Witness for C4: a parsed frame having only a `gender` column is rejected
and leads to the error page with no data callbacks. -/
theorem claim_C4_witness :
    data_manager.load_validated_data (.ok ⟨["gender"], []⟩) = none ∧
    app.page_content (data_manager.load_validated_data (.ok ⟨["gender"], []⟩)) =
      .errorPage ∧
    app.dataCallbacksRegistered
      (data_manager.load_validated_data (.ok ⟨["gender"], []⟩)) = false := by
  have h := claim_C4 (.ok ⟨["gender"], []⟩)
  have hn : data_manager.load_validated_data (.ok ⟨["gender"], []⟩) = none :=
    h.1.mpr (Or.inr (Or.inr (Or.inr ⟨⟨["gender"], []⟩, rfl,
      Or.inl ⟨"parental_education_level", by decide, by decide⟩⟩)))
  exact ⟨hn, (h.2 hn).1, (h.2 hn).2⟩

/-- C6: on a frame with rows, `create_heatmap` computes the correlation
matrix over exactly the columns of `HEATMAP_NUMERIC_COLS` present in the
frame, and returns the `[[0]]` placeholder instead whenever fewer than two of
them are present. -/
theorem claim_C6 (d : Frame) (tpl : String) (h : d.rows ≠ []) :
    ((config.HEATMAP_NUMERIC_COLS.filter (fun c => decide (c ∈ d.cols))).length < 2 →
      plots.create_heatmap d tpl =
        .imshow [[0]] "Korelacje między cechami (Niewystarczające dane)") ∧
    (¬ (config.HEATMAP_NUMERIC_COLS.filter (fun c => decide (c ∈ d.cols))).length < 2 →
      plots.create_heatmap d tpl =
        .imshowCorr
          ((config.HEATMAP_NUMERIC_COLS.filter (fun c => decide (c ∈ d.cols))).map
            (fun c => (c, d.rows.map (plots.numCol c))))
          tpl "Korelacje między cechami") := by
  have hE : d.isEmptyF = false := by simp [Frame.isEmptyF, List.isEmpty_iff, h]
  constructor
  · intro hc
    simp [plots.create_heatmap, hE, hc]
  · intro hc
    simp [plots.create_heatmap, hE, hc]

/-- Witness for C6: a frame with only `exam_score` among the numeric columns
gets the placeholder; a frame with all required columns gets the correlation
over all five numeric columns. -/
theorem claim_C6_witness :
    plots.create_heatmap
        ⟨["gender", "exam_score"], [⟨"F", "HS", 2, 80, 1, 7, 90, "Yes", 5⟩]⟩ "plotly_white" =
      .imshow [[0]] "Korelacje między cechami (Niewystarczające dane)" ∧
    plots.create_heatmap
        ⟨config.REQUIRED_COLUMNS, [⟨"F", "HS", 2, 80, 1, 7, 90, "Yes", 5⟩]⟩ "plotly_white" =
      .imshowCorr
        ((config.HEATMAP_NUMERIC_COLS.filter
            (fun c => decide (c ∈ config.REQUIRED_COLUMNS))).map
          (fun c => (c, [(⟨"F", "HS", 2, 80, 1, 7, 90, "Yes", 5⟩ : Row)].map (plots.numCol c))))
        "plotly_white" "Korelacje między cechami" :=
  ⟨(claim_C6 ⟨["gender", "exam_score"], [⟨"F", "HS", 2, 80, 1, 7, 90, "Yes", 5⟩]⟩
      "plotly_white" (by decide)).1 (by decide),
   (claim_C6 ⟨config.REQUIRED_COLUMNS, [⟨"F", "HS", 2, 80, 1, 7, 90, "Yes", 5⟩]⟩
      "plotly_white" (by decide)).2 (by decide)⟩

/-- Membership in the per-education-level mean table: the pairs are exactly
the levels present in the rows, each with the mean exam score of its
group. -/
theorem mem_avg_scores_iff (rows : List Row) (p : String × ℚ) :
    p ∈ plots.avg_scores_by_edu rows ↔
      p.1 ∈ rows.map Row.parental_education_level ∧
      p.2 = mean ((rows.filter
        (fun r => decide (r.parental_education_level = p.1))).map Row.exam_score) := by
  unfold plots.avg_scores_by_edu sortedKeys
  constructor
  · intro hp
    rw [List.mem_map] at hp
    obtain ⟨k, hk, hfk⟩ := hp
    have hk' : k ∈ (rows.map Row.parental_education_level).dedup :=
      (List.perm_insertionSort _ _).mem_iff.mp hk
    rw [List.mem_dedup] at hk'
    cases hfk
    exact ⟨hk', rfl⟩
  · rintro ⟨h1, h2⟩
    rw [List.mem_map]
    refine ⟨p.1, (List.perm_insertionSort _ _).mem_iff.mpr (List.mem_dedup.mpr h1), ?_⟩
    rw [← h2]

/-- C5: on a frame with rows, the education bar chart plots, for each
distinct parental-education level present, the mean exam score of its group,
with the bars in ascending order of mean score. -/
theorem claim_C5 (d : Frame) (tpl : String) (h : d.rows ≠ []) :
    plots.create_bar_avg_score_by_edu d tpl =
      .bar ((plots.avg_scores_by_edu d.rows).insertionSort (fun a b => a.2 ≤ b.2))
        "parental_education_level" "exam_score" tpl
        "Średnie wyniki egzaminów wg wykształcenia rodziców" ∧
    List.Sorted (fun a b : String × ℚ => a.2 ≤ b.2)
      ((plots.avg_scores_by_edu d.rows).insertionSort (fun a b => a.2 ≤ b.2)) ∧
    (((plots.avg_scores_by_edu d.rows).insertionSort
        (fun a b => a.2 ≤ b.2)).map Prod.fst).Nodup ∧
    ∀ p : String × ℚ,
      p ∈ (plots.avg_scores_by_edu d.rows).insertionSort (fun a b => a.2 ≤ b.2) ↔
        p.1 ∈ d.rows.map Row.parental_education_level ∧
        p.2 = mean ((d.rows.filter
          (fun r => decide (r.parental_education_level = p.1))).map Row.exam_score) := by
  have hE : d.isEmptyF = false := by simp [Frame.isEmptyF, List.isEmpty_iff, h]
  haveI htot : IsTotal (String × ℚ) (fun a b => a.2 ≤ b.2) := ⟨fun a b => le_total a.2 b.2⟩
  haveI htr : IsTrans (String × ℚ) (fun a b => a.2 ≤ b.2) :=
    ⟨fun _ _ _ hab hbc => le_trans hab hbc⟩
  refine ⟨?_, ?_, ?_, ?_⟩
  · simp [plots.create_bar_avg_score_by_edu, hE]
  · exact List.sorted_insertionSort _ _
  · have hperm : List.Perm (((plots.avg_scores_by_edu d.rows).insertionSort
        (fun a b => a.2 ≤ b.2)).map Prod.fst)
        ((plots.avg_scores_by_edu d.rows).map Prod.fst) :=
      (List.perm_insertionSort _ _).map Prod.fst
    refine hperm.nodup_iff.mpr ?_
    unfold plots.avg_scores_by_edu
    rw [List.map_map]
    have : (Prod.fst ∘ fun k => (k, mean ((d.rows.filter
        (fun r => decide (r.parental_education_level = k))).map Row.exam_score))) = id := rfl
    rw [this, List.map_id]
    exact (List.perm_insertionSort _ _).nodup_iff.mpr (List.nodup_dedup _)
  · intro p
    rw [(List.perm_insertionSort _ _).mem_iff]
    exact mem_avg_scores_iff d.rows p

/-- Witness for C5: two education levels with means `90` and `70` come out
ordered by ascending mean. -/
theorem claim_C5_witness :
    plots.create_bar_avg_score_by_edu
        ⟨config.REQUIRED_COLUMNS,
          [⟨"Female", "A", 2, 90, 1, 7, 90, "Yes", 5⟩,
           ⟨"Male", "B", 5, 70, 2, 6, 95, "No", 7⟩]⟩ "plotly_white" =
      .bar ((plots.avg_scores_by_edu
          [⟨"Female", "A", 2, 90, 1, 7, 90, "Yes", 5⟩,
           ⟨"Male", "B", 5, 70, 2, 6, 95, "No", 7⟩]).insertionSort (fun a b => a.2 ≤ b.2))
        "parental_education_level" "exam_score" "plotly_white"
        "Średnie wyniki egzaminów wg wykształcenia rodziców" :=
  (claim_C5 ⟨config.REQUIRED_COLUMNS,
      [⟨"Female", "A", 2, 90, 1, 7, 90, "Yes", 5⟩,
       ⟨"Male", "B", 5, 70, 2, 6, 95, "No", 7⟩]⟩ "plotly_white" (by decide)).1

/-- Partition counting: summing, over a duplicate-free list of values that
covers the image of `f` on `l`, the sizes of the fibres of `f` gives the
length of `l`. -/
theorem length_eq_sum_fiber {α β : Type} [DecidableEq β] (f : α → β) :
    ∀ (vs : List β) (l : List α), vs.Nodup → (∀ x ∈ l, f x ∈ vs) →
      (vs.map (fun v => (l.filter (fun x => decide (f x = v))).length)).sum = l.length := by
  intro vs
  induction vs with
  | nil =>
    intro l _ hcov
    have hl : l = [] := by
      cases l with
      | nil => rfl
      | cons a t => exact absurd (hcov a (List.mem_cons_self a t)) (List.not_mem_nil _)
    subst hl
    simp
  | cons v vs ih =>
    intro l hnd hcov
    have hndtail : vs.Nodup := (List.nodup_cons.mp hnd).2
    have hv : v ∉ vs := (List.nodup_cons.mp hnd).1
    have hterm : ∀ w ∈ vs, l.filter (fun x => decide (f x = w)) =
        (l.filter (fun x => !decide (f x = v))).filter (fun x => decide (f x = w)) := by
      intro w hw
      rw [List.filter_filter]
      apply List.filter_congr
      intro x _
      by_cases hfx : f x = w
      · have hwv : w ≠ v := fun hwv => hv (hwv ▸ hw)
        simp [hfx, hwv]
      · simp [hfx]
    rw [List.map_cons, List.sum_cons]
    have hmap : (vs.map (fun w => (l.filter (fun x => decide (f x = w))).length)).sum =
        (vs.map (fun w => ((l.filter (fun x => !decide (f x = v))).filter
          (fun x => decide (f x = w))).length)).sum := by
      apply congrArg
      apply List.map_congr_left
      intro w hw
      rw [hterm w hw]
    rw [hmap, ih (l.filter (fun x => !decide (f x = v))) hndtail ?_]
    · exact (List.length_eq_length_filter_add (fun x => decide (f x = v))).symm
    · intro x hx
      have hx' := List.mem_filter.mp hx
      have h1 : f x ∈ v :: vs := hcov x hx'.1
      have h2 : f x ≠ v := by simpa using hx'.2
      cases List.mem_cons.mp h1 with
      | inl hh => exact absurd hh h2
      | inr hh => exact hh

/-- Each `part_time_job` group total is the sum of the per-`(job, gender)`
counts of its children. -/
theorem job_total_eq_sum_children (rows : List Row) :
    ∀ p ∈ plots.job_totals rows,
      p.2 = (((plots.job_gender_counts rows).filter
        (fun q => decide (q.1.1 = p.1))).map Prod.snd).sum := by
  intro p hp
  unfold plots.job_totals at hp
  rw [List.mem_map] at hp
  obtain ⟨k, hk, hfk⟩ := hp
  cases hfk
  have hnd : ((sortedPairKeys rows).filter
      (fun pr => decide (pr.1 = k))).Nodup := by
    apply List.Nodup.filter
    exact (List.perm_insertionSort _ _).nodup_iff.mpr (List.nodup_dedup _)
  have hcov : ∀ x ∈ rows.filter (fun r => decide (r.part_time_job = k)),
      (fun r => (r.part_time_job, r.gender)) x ∈
        (sortedPairKeys rows).filter (fun pr => decide (pr.1 = k)) := by
    intro x hx
    have hx' := List.mem_filter.mp hx
    rw [List.mem_filter]
    constructor
    · unfold sortedPairKeys
      exact (List.perm_insertionSort _ _).mem_iff.mpr
        (List.mem_dedup.mpr (List.mem_map_of_mem _ hx'.1))
    · simpa using of_decide_eq_true hx'.2
  have hkey := length_eq_sum_fiber (fun r => (r.part_time_job, r.gender))
    ((sortedPairKeys rows).filter (fun pr => decide (pr.1 = k)))
    (rows.filter (fun r => decide (r.part_time_job = k))) hnd hcov
  show (rows.filter (fun r => decide (r.part_time_job = k))).length =
      (((plots.job_gender_counts rows).filter
        (fun q => decide (q.1.1 = k))).map Prod.snd).sum
  unfold plots.job_gender_counts
  rw [List.filter_map, List.map_map]
  show (rows.filter (fun r => decide (r.part_time_job = k))).length =
      (((sortedPairKeys rows).filter (fun pr => decide (pr.1 = k))).map
        (fun pr => (rows.filter (fun r =>
          decide (r.part_time_job = pr.1) && decide (r.gender = pr.2))).length)).sum
  rw [← hkey]
  apply congrArg
  apply List.map_congr_left
  intro pr hpr
  have hprk : pr.1 = k := by simpa using (List.mem_filter.mp hpr).2
  rw [List.filter_filter]
  apply congrArg
  apply List.filter_congr
  intro r _
  by_cases h1 : r.part_time_job = pr.1 <;> by_cases h2 : r.gender = pr.2 <;>
    simp [Prod.ext_iff, h1, h2, hprk]

/-- C9: on a frame with rows, the sunburst figure is built from the child
entries (one per `(job, gender)` pair, valued by the pair count) and the root
entries (one per job, valued by the group size), and each root value equals
the sum of the values of its children, as `branchvalues="total"` demands. -/
theorem claim_C9 (d : Frame) (tpl : String) (h : d.rows ≠ []) :
    plots.create_job_sunburst_chart d tpl =
      .sunburst
        ((plots.job_gender_counts d.rows).map (fun pc => pc.1.1 ++ " - " ++ pc.1.2) ++
          (plots.job_totals d.rows).map (fun kt => kt.1))
        ((plots.job_gender_counts d.rows).map (fun pc => pc.1.2) ++
          (plots.job_totals d.rows).map (fun kt => "Praca: " ++ kt.1))
        ((plots.job_gender_counts d.rows).map (fun pc => pc.1.1) ++
          (plots.job_totals d.rows).map (fun _ => ""))
        ((plots.job_gender_counts d.rows).map (fun pc => pc.2) ++
          (plots.job_totals d.rows).map (fun kt => kt.2))
        "total" tpl "Struktura studentów: Status pracy i płeć" ∧
    ∀ p ∈ plots.job_totals d.rows,
      p.2 = (((plots.job_gender_counts d.rows).filter
        (fun q => decide (q.1.1 = p.1))).map Prod.snd).sum := by
  have hE : d.isEmptyF = false := by simp [Frame.isEmptyF, List.isEmpty_iff, h]
  exact ⟨by simp [plots.create_job_sunburst_chart, hE],
    job_total_eq_sum_children d.rows⟩

/-- Witness for C9: with two rows sharing job `"Yes"` and gender `"Female"`,
the root `("Yes", 2)` carries the sum of its single child's value. -/
theorem claim_C9_witness :
    ("Yes", 2) ∈ plots.job_totals
      [⟨"Female", "A", 2, 90, 1, 7, 90, "Yes", 5⟩,
       ⟨"Female", "B", 5, 70, 2, 6, 95, "Yes", 7⟩] ∧
    (("Yes", 2) : String × Nat).2 =
      (((plots.job_gender_counts
          [⟨"Female", "A", 2, 90, 1, 7, 90, "Yes", 5⟩,
           ⟨"Female", "B", 5, 70, 2, 6, 95, "Yes", 7⟩]).filter
        (fun q => decide (q.1.1 = ("Yes", 2).1))).map Prod.snd).sum :=
  ⟨by decide,
   (claim_C9 ⟨config.REQUIRED_COLUMNS,
      [⟨"Female", "A", 2, 90, 1, 7, 90, "Yes", 5⟩,
       ⟨"Female", "B", 5, 70, 2, 6, 95, "Yes", 7⟩]⟩ "plotly_white" (by decide)).2
    ("Yes", 2) (by decide)⟩

/-- Reading left of an append is reading the original heap. -/
theorem heapGet_append_left (h t : List Frame) (k : Nat) (hk : k < h.length) :
    heapGet (h ++ t) k = heapGet h k := by
  unfold heapGet
  exact List.getD_append h t Frame.emptyFrame k hk

/-- Reading the cell just allocated. -/
theorem heapGet_append_self (h : List Frame) (f : Frame) :
    heapGet (h ++ [f]) h.length = f := by
  unfold heapGet
  rw [List.getD_append_right h [f] Frame.emptyFrame h.length (Nat.le_refl _)]
  simp

/-- A guarded mask step only appends to the heap, and its result reference
holds the (possibly) filtered frame. -/
theorem maskIf_step (hc : List Frame × Nat) (b : Bool) (p : Row → Bool)
    (base : List Frame) (v : Frame) (hext : ∃ t, hc.1 = base ++ t)
    (hv : heapGet hc.1 hc.2 = v) :
    (∃ t, (maskIf hc b p).1 = base ++ t) ∧
    heapGet (maskIf hc b p).1 (maskIf hc b p).2 =
      (if b then v.filterRows p else v) := by
  obtain ⟨t, ht⟩ := hext
  cases b with
  | false => exact ⟨⟨t, ht⟩, by simpa [maskIf] using hv⟩
  | true =>
    refine ⟨⟨t ++ [(heapGet hc.1 hc.2).filterRows p], by simp [maskIf, alloc, ht]⟩, ?_⟩
    simp [maskIf, alloc, heapGet_append_self, hv]

/-- The heap-level `filter_data` only appends cells, and the cell it returns
holds exactly the value of the pure `filter_data`. -/
theorem filter_data_heap_spec (h : List Frame) (i : Nat)
    (g e : Option (List String)) (shr : List ℚ) (j : Option (List String)) :
    (∃ t, (data_manager.filter_data_heap h (some i) g e shr j).1 = h ++ t) ∧
    heapGet (data_manager.filter_data_heap h (some i) g e shr j).1
        (data_manager.filter_data_heap h (some i) g e shr j).2 =
      data_manager.filter_data (some (heapGet h i)) g e shr j := by
  cases hE : (heapGet h i).isEmptyF
  · have s1 : (∃ t, (copyOp h i).1 = h ++ t) ∧
        heapGet (copyOp h i).1 (copyOp h i).2 = heapGet h i :=
      ⟨⟨[heapGet h i], rfl⟩, by simp [copyOp, alloc, heapGet_append_self]⟩
    have s2 := maskIf_step (copyOp h i) (pyTruthy g)
      (fun r => decide (r.gender ∈ g.getD [])) h (heapGet h i) s1.1 s1.2
    have s3 := maskIf_step _ (pyTruthy e)
      (fun r => decide (r.parental_education_level ∈ e.getD [])) h _ s2.1 s2.2
    have s4 := maskIf_step _ (pyTruthy j)
      (fun r => decide (r.part_time_job ∈ j.getD [])) h _ s3.1 s3.2
    rcases shr with _ | ⟨a, _ | ⟨b, _ | ⟨c, t⟩⟩⟩
    · constructor
      · simpa only [data_manager.filter_data_heap, hE, Bool.false_eq_true,
          if_false] using s4.1
      · simp only [data_manager.filter_data_heap, data_manager.filter_data, hE,
          Bool.false_eq_true, if_false]
        exact s4.2
    · constructor
      · simpa only [data_manager.filter_data_heap, hE, Bool.false_eq_true,
          if_false] using s4.1
      · simp only [data_manager.filter_data_heap, data_manager.filter_data, hE,
          Bool.false_eq_true, if_false]
        exact s4.2
    · have s5 := maskIf_step _ true (fun r =>
        decide (a ≤ r.study_hours_per_day) && decide (r.study_hours_per_day ≤ b))
        h _ s4.1 s4.2
      constructor
      · simpa only [data_manager.filter_data_heap, hE, Bool.false_eq_true,
          if_false] using s5.1
      · simp only [data_manager.filter_data_heap, data_manager.filter_data, hE,
          Bool.false_eq_true, if_false]
        simpa using s5.2
    · constructor
      · simpa only [data_manager.filter_data_heap, hE, Bool.false_eq_true,
          if_false] using s4.1
      · simp only [data_manager.filter_data_heap, data_manager.filter_data, hE,
          Bool.false_eq_true, if_false]
        exact s4.2
  · constructor
    · refine ⟨[Frame.emptyFrame], ?_⟩
      simp [data_manager.filter_data_heap, hE, alloc]
    · simp [data_manager.filter_data_heap, data_manager.filter_data, hE, alloc,
        heapGet_append_self]

/-- C8: `filter_data`, run over an explicit heap of pandas objects in which
`df.copy()` and each boolean-mask selection allocate fresh cells, never
writes to an existing cell: every frame present before the call — the input
frame in particular — is unchanged after it, the returned cell holds exactly
the pure `filter_data` of the input frame, and calling it again on the same
input reference produces the same frame value, so repeated invocations always
filter the full original data. -/
theorem claim_C8 (h : List Frame) (i : Nat) (g e : Option (List String))
    (shr : List ℚ) (j : Option (List String)) (hi : i < h.length) :
    (∀ k, k < h.length →
      heapGet (data_manager.filter_data_heap h (some i) g e shr j).1 k = heapGet h k) ∧
    heapGet (data_manager.filter_data_heap h (some i) g e shr j).1
        (data_manager.filter_data_heap h (some i) g e shr j).2 =
      data_manager.filter_data (some (heapGet h i)) g e shr j ∧
    heapGet (data_manager.filter_data_heap
          (data_manager.filter_data_heap h (some i) g e shr j).1 (some i) g e shr j).1
        (data_manager.filter_data_heap
          (data_manager.filter_data_heap h (some i) g e shr j).1 (some i) g e shr j).2 =
      heapGet (data_manager.filter_data_heap h (some i) g e shr j).1
        (data_manager.filter_data_heap h (some i) g e shr j).2 := by
  obtain ⟨⟨t, ht⟩, hval⟩ := filter_data_heap_spec h i g e shr j
  have hpres : ∀ k, k < h.length →
      heapGet (data_manager.filter_data_heap h (some i) g e shr j).1 k = heapGet h k := by
    intro k hk
    rw [ht]
    exact heapGet_append_left h t k hk
  refine ⟨hpres, hval, ?_⟩
  obtain ⟨⟨t2, ht2⟩, hval2⟩ := filter_data_heap_spec
    (data_manager.filter_data_heap h (some i) g e shr j).1 i g e shr j
  rw [hval2, hpres i hi, hval]

/-- Witness for C8: on a one-frame heap, the input cell is unchanged, the
result cell holds the filtered frame, and a second call returns the same
value. -/
theorem claim_C8_witness :
    (∀ k, k < ([⟨config.REQUIRED_COLUMNS,
        [⟨"Female", "A", 2, 90, 1, 7, 90, "Yes", 5⟩]⟩] : List Frame).length →
      heapGet (data_manager.filter_data_heap
          [⟨config.REQUIRED_COLUMNS, [⟨"Female", "A", 2, 90, 1, 7, 90, "Yes", 5⟩]⟩]
          (some 0) (some ["Female"]) none [1, 4] none).1 k =
        heapGet [⟨config.REQUIRED_COLUMNS,
          [⟨"Female", "A", 2, 90, 1, 7, 90, "Yes", 5⟩]⟩] k) ∧
    heapGet (data_manager.filter_data_heap
        [⟨config.REQUIRED_COLUMNS, [⟨"Female", "A", 2, 90, 1, 7, 90, "Yes", 5⟩]⟩]
        (some 0) (some ["Female"]) none [1, 4] none).1
      (data_manager.filter_data_heap
        [⟨config.REQUIRED_COLUMNS, [⟨"Female", "A", 2, 90, 1, 7, 90, "Yes", 5⟩]⟩]
        (some 0) (some ["Female"]) none [1, 4] none).2 =
      data_manager.filter_data
        (some (heapGet [⟨config.REQUIRED_COLUMNS,
          [⟨"Female", "A", 2, 90, 1, 7, 90, "Yes", 5⟩]⟩] 0))
        (some ["Female"]) none [1, 4] none := by
  have hc := claim_C8 [⟨config.REQUIRED_COLUMNS,
    [⟨"Female", "A", 2, 90, 1, 7, 90, "Yes", 5⟩]⟩] 0
    (some ["Female"]) none [1, 4] none (by decide)
  exact ⟨hc.1, hc.2.1⟩

end StudentDash
